import Mathlib

/-!
# Verification of the SACS v6.0 cloud analysis engine

A shallow embedding of `src/main.py` (FastAPI service) in Lean 4, together
with theorems settling the specified properties of its analysis engine.

Conventions of the embedding:
* Python floats (timestamps, scores, confidences) are modelled as exact
  rationals `ℚ`; Python ints as `ℤ`/`ℕ`.
* The module-level mutable lists `TELEMETRY_STORE` and `THREAT_DATABASE`
  are passed explicitly as `List` arguments; `time.time()` is passed as an
  explicit `now` argument.
* Threat levels are the string literals the code uses
  (`"LOW" | "MODERATE" | "HIGH" | "CRITICAL"`).
* `np.std` is the population standard deviation; the source's comparison
  `|gap - mean| > 3 * std` is embedded as the equivalent decidable test
  `(gap - mean)^2 > 9 * variance` (both sides of the source comparison are
  nonnegative, so squaring is an equivalence).
-/

/-- One stored telemetry record, as built by `upload_telemetry`
(`src/main.py` lines 68-75): the uploaded fields plus the engine-assigned
`received_at`. -/
structure Batch where
  device_id : String
  encrypted_data : String
  batch_start : ℚ
  batch_end : ℚ
  sample_count : ℤ
  received_at : ℚ
deriving Repr, DecidableEq

/-- One stored threat-intelligence record, as built by `report_threat`
(`src/main.py` lines 220-227). -/
structure ThreatRecord where
  threat_level : String
  confidence : ℚ
  indicators : List String
  recommendations : List String
  reported_at : ℚ
  timestamp : ℚ
deriving Repr, DecidableEq

/-- The append-then-truncate step both stores share: append the new entry,
then keep only the last `cap` entries if the length exceeds `cap`
(Python `STORE[:] = STORE[-cap:]`, i.e. drop from the front). -/
def boundedAppend (cap : ℕ) (store : List α) (x : α) : List α :=
  let s := store ++ [x]
  if s.length > cap then s.drop (s.length - cap) else s

/-- `upload_telemetry` storage effect (`src/main.py` lines 68-79):
append the batch, keep the last 10000. -/
def upload_telemetry (store : List Batch) (b : Batch) : List Batch :=
  boundedAppend 10000 store b

/-- `report_threat` storage effect (`src/main.py` lines 220-231):
append the record, keep the last 1000. -/
def report_threat (store : List ThreatRecord) (t : ThreatRecord) : List ThreatRecord :=
  boundedAppend 1000 store t

/-- Inter-batch gaps (`src/main.py` lines 118-121): for `i = 1..n-1`,
`batch_start(i) - batch_end(i-1)`. -/
def batchIntervals (bs : List Batch) : List ℚ :=
  List.zipWith (fun prev cur => cur.batch_start - prev.batch_end) bs bs.tail

/-- Arithmetic mean of the gap list (`np.mean`). -/
def gapMean (gaps : List ℚ) : ℚ := gaps.sum / gaps.length

/-- Population variance of the gap list (`np.std` squared; `np.std` uses
`ddof = 0`). -/
def gapVarSq (gaps : List ℚ) : ℚ :=
  ((gaps.map (fun g => (g - gapMean gaps) ^ 2)).sum) / gaps.length

/-- The source's outlier test `abs (interval - mean_interval) > 3 * std_interval`
(`src/main.py` line 130), squared into an exact test on the variance. -/
def isAnomalousGap (m ssq g : ℚ) : Bool := decide ((g - m) ^ 2 > 9 * ssq)

/-- Anomaly detection (`src/main.py` lines 124-131): if there are any gaps,
flag each gap whose deviation from the mean exceeds three standard
deviations, emitting `"Unusual gap in telemetry at batch {i}"` with `i` the
`enumerate` index (0-based), in gap order. -/
def detectAnomalies (bs : List Batch) : List String :=
  let gaps := batchIntervals bs
  if gaps.isEmpty then []
  else
    let m := gapMean gaps
    let ssq := gapVarSq gaps
    gaps.enum.filterMap (fun p =>
      if isAnomalousGap m ssq p.2 then
        some ("Unusual gap in telemetry at batch " ++ toString p.1)
      else none)

/-- Anomaly contribution to the threat score (`src/main.py` lines 137-138):
`min(0.3, len(anomalies) * 0.1)` added only when the list is non-empty. -/
def anomalyTerm (anomalies : List String) : ℚ :=
  if anomalies.isEmpty then 0 else min 0.3 (anomalies.length * 0.1)

/-- Upload-density contribution (`src/main.py` lines 141-142): `0.2` when
`batch_count < time_range_hours * 6`. -/
def densityTerm (batch_count : ℕ) (hours : ℤ) : ℚ :=
  if (batch_count : ℤ) < hours * 6 then 0.2 else 0

/-- Threat-level bucketing (`src/main.py` lines 145-152): strict
comparisons, first match wins. -/
def levelOf (score : ℚ) : String :=
  if score > 0.7 then "CRITICAL"
  else if score > 0.5 then "HIGH"
  else if score > 0.3 then "MODERATE"
  else "LOW"

/-- Confidence (`src/main.py` line 168): `min(0.95, total_samples / 10000)`. -/
def confidenceOf (total_samples : ℤ) : ℚ :=
  min 0.95 ((total_samples : ℚ) / 10000)

/-- Recommendation assembly (`src/main.py` lines 155-162 and 175): three
conditional appends in source order, then the empty list is replaced by the
single fallback entry. -/
def recommendationsOf (anomalies : List String) (batch_count : ℕ) (level : String) : List String :=
  let r0 : List String := []
  let r1 := if anomalies.isEmpty then r0
            else r0 ++ ["Investigate telemetry gaps for possible interference"]
  let r2 := if batch_count < 10 then r1 ++ ["Continue baseline collection for improved accuracy"]
            else r1
  let r3 := if level = "HIGH" ∨ level = "CRITICAL" then
              r2 ++ ["Enable enhanced monitoring mode", "Review device for surveillance indicators"]
            else r2
  if r3.isEmpty then ["Continue normal operation"] else r3

/-- The fields of the `"status": "complete"` response of `request_analysis`
that the engine computes (`src/main.py` lines 164-177). -/
structure AnalysisReport where
  threat_level : String
  threat_score : ℚ
  confidence : ℚ
  batches_analyzed : ℕ
  total_samples : ℤ
  indicators : List String
  recommendations : List String
deriving Repr, DecidableEq

/-- Outcome of an analysis request: the `"insufficient_data"` response or a
completed report. -/
inductive AnalysisOutcome where
  | insufficientData
  | complete (r : AnalysisReport)
deriving Repr, DecidableEq

/-- The device/time-window filter of `request_analysis`
(`src/main.py` lines 100-104): matching `device_id` and
`received_at > now - hours * 3600`. -/
def filteredBatches (store : List Batch) (d : String) (hours : ℤ) (now : ℚ) : List Batch :=
  store.filter (fun b => decide (b.device_id = d ∧ b.received_at > now - hours * 3600))

/-- `request_analysis` (`src/main.py` lines 93-177): filter, bail out with
`insufficient_data` on an empty match, otherwise score and assemble the
report. -/
def request_analysis (store : List Batch) (d : String) (hours : ℤ) (now : ℚ) :
    AnalysisOutcome :=
  let db := filteredBatches store d hours now
  if db.isEmpty then .insufficientData
  else
    let total_samples := (db.map Batch.sample_count).sum
    let batch_count := db.length
    let anomalies := detectAnomalies db
    let score := anomalyTerm anomalies + densityTerm batch_count hours
    let level := levelOf score
    .complete {
      threat_level := level
      threat_score := score
      confidence := confidenceOf total_samples
      batches_analyzed := batch_count
      total_samples := total_samples
      indicators := anomalies
      recommendations := recommendationsOf anomalies batch_count level }

/-- The computed fields of the forensic report (`src/main.py` lines 296-321);
the constant placeholder fields are omitted. -/
structure ForensicReport where
  device_id : String
  first_batch : ℚ
  last_batch : ℚ
  duration_hours : ℚ
  total_batches : ℕ
  total_samples : ℤ
deriving Repr, DecidableEq

/-- The unbounded per-device filter of `generate_forensic_report`
(`src/main.py` lines 282-285). -/
def allDeviceBatches (store : List Batch) (d : String) : List Batch :=
  store.filter (fun b => b.device_id == d)

/-- `generate_forensic_report` (`src/main.py` lines 275-323): HTTP 404 when
the device has no batches; otherwise `first_batch = min(batch_start)`,
`last_batch = max(batch_end)`, `duration_hours = (last - first) / 3600`. -/
def generate_forensic_report (store : List Batch) (d : String) :
    Except String ForensicReport :=
  match allDeviceBatches store d with
  | [] => .error "No telemetry found for device"
  | b :: bs =>
    let first_batch := bs.foldl (fun m x => min m x.batch_start) b.batch_start
    let last_batch := bs.foldl (fun m x => max m x.batch_end) b.batch_end
    .ok {
      device_id := d
      first_batch := first_batch
      last_batch := last_batch
      duration_hours := (last_batch - first_batch) / 3600
      total_batches := (b :: bs).length
      total_samples := ((b :: bs).map Batch.sample_count).sum }

/-! ## Concrete values used by witnesses and counterexamples -/

/-- A class-book batch: device `"d1"`, 100 samples, received at time 0. -/
def b0 : Batch :=
  { device_id := "d1", encrypted_data := "", batch_start := 0, batch_end := 0,
    sample_count := 100, received_at := 0 }

/-- A class-book threat record. -/
def t0 : ThreatRecord :=
  { threat_level := "LOW", confidence := 1/2, indicators := [], recommendations := [],
    reported_at := 0, timestamp := 0 }

/-! ## Bounded-store lemmas -/

theorem boundedAppend_length_le (cap : ℕ) (s : List α) (x : α) :
    (boundedAppend cap s x).length ≤ cap := by
  unfold boundedAppend
  by_cases h : (s ++ [x]).length > cap
  · simp only [h, if_true, List.length_drop]
    omega
  · simp only [h, if_false]
    omega

theorem boundedAppend_suffix (cap : ℕ) (s : List α) (x : α) :
    List.IsSuffix (boundedAppend cap s x) (s ++ [x]) := by
  unfold boundedAppend
  by_cases h : (s ++ [x]).length > cap
  · simp only [h, if_true]
    exact List.drop_suffix _ _
  · simp only [h, if_false]
    exact ⟨[], rfl⟩

theorem boundedAppend_of_lt (cap : ℕ) (s : List α) (x : α) (h : s.length < cap) :
    boundedAppend cap s x = s ++ [x] := by
  unfold boundedAppend
  rw [if_neg]
  simp only [List.length_append, List.length_singleton]
  omega

/-- **C5**: after every completed insert the telemetry store holds at most
10000 entries and the threat store at most 1000; the result is a suffix of
the appended sequence (so eviction is oldest-first and preserves the
relative order of survivors), and below capacity nothing is evicted. -/
theorem bounded_store_invariant (store : List Batch) (b : Batch)
    (ts : List ThreatRecord) (t : ThreatRecord) :
    (upload_telemetry store b).length ≤ 10000 ∧
    List.IsSuffix (upload_telemetry store b) (store ++ [b]) ∧
    (report_threat ts t).length ≤ 1000 ∧
    List.IsSuffix (report_threat ts t) (ts ++ [t]) ∧
    (store.length < 10000 → upload_telemetry store b = store ++ [b]) ∧
    (ts.length < 1000 → report_threat ts t = ts ++ [t]) :=
  ⟨boundedAppend_length_le _ _ _, boundedAppend_suffix _ _ _,
   boundedAppend_length_le _ _ _, boundedAppend_suffix _ _ _,
   fun h => boundedAppend_of_lt _ _ _ h, fun h => boundedAppend_of_lt _ _ _ h⟩

/-- Witness for C5: inserting into empty stores keeps the single entry. -/
theorem bounded_store_invariant_witness :
    upload_telemetry [] b0 = [b0] ∧ report_threat [] t0 = [t0] :=
  ⟨(bounded_store_invariant [] b0 [] t0).2.2.2.2.1 (by decide),
   (bounded_store_invariant [] b0 [] t0).2.2.2.2.2 (by decide)⟩

/-- **C3**: the level thresholds are strict and evaluated in order; in
particular a score of exactly 0.3 maps to LOW and exactly 0.5 to MODERATE. -/
theorem threat_level_thresholds (s : ℚ) :
    (levelOf s = "CRITICAL" ↔ 0.7 < s) ∧
    (levelOf s = "HIGH" ↔ 0.5 < s ∧ s ≤ 0.7) ∧
    (levelOf s = "MODERATE" ↔ 0.3 < s ∧ s ≤ 0.5) ∧
    (levelOf s = "LOW" ↔ s ≤ 0.3) ∧
    levelOf 0.3 = "LOW" ∧ levelOf 0.5 = "MODERATE" := by
  have h3 : levelOf (0.3 : ℚ) = "LOW" := by unfold levelOf; norm_num
  have h5 : levelOf (0.5 : ℚ) = "MODERATE" := by unfold levelOf; norm_num
  refine ⟨?_, ?_, ?_, ?_, h3, h5⟩ <;>
    · unfold levelOf
      split_ifs with h1 h2 h3' <;> simp_all <;>
        first
          | linarith
          | (intro h; linarith)

/-! ## Anomaly-detector lemmas -/

theorem detectAnomalies_of_short (bs : List Batch) (h : bs.length < 2) :
    detectAnomalies bs = [] := by
  match bs with
  | [] => rfl
  | [b] => rfl
  | a :: c :: t => simp only [List.length_cons] at h; omega

theorem detectAnomalies_of_const (bs : List Batch) (c : ℚ)
    (h : ∀ g ∈ batchIntervals bs, g = c) : detectAnomalies bs = [] := by
  unfold detectAnomalies
  by_cases hg : (batchIntervals bs).isEmpty
  · simp [hg]
  · simp only [hg, Bool.false_eq_true, if_false]
    have hne : batchIntervals bs ≠ [] := by simp_all
    have hlen : ((batchIntervals bs).length : ℚ) ≠ 0 := by
      simp only [ne_eq, Nat.cast_eq_zero, List.length_eq_zero]
      exact hne
    have hmean : gapMean (batchIntervals bs) = c := by
      unfold gapMean
      rw [List.sum_eq_card_nsmul _ c h, nsmul_eq_mul, mul_div_cancel_left₀ _ hlen]
    have hvar : gapVarSq (batchIntervals bs) = 0 := by
      unfold gapVarSq
      have hz : ((batchIntervals bs).map (fun g => (g - gapMean (batchIntervals bs)) ^ 2)).sum
          = 0 := by
        apply List.sum_eq_zero
        intro x hx
        rcases List.mem_map.1 hx with ⟨g, hgmem, rfl⟩
        rw [hmean, h g hgmem]
        ring
      rw [hz, zero_div]
    rw [List.filterMap_eq_nil_iff]
    intro p hp
    have hsnd : p.2 ∈ batchIntervals bs := by
      have hm := List.mem_map_of_mem Prod.snd hp
      rwa [List.enum_map_snd] at hm
    rw [if_neg]
    simp only [isAnomalousGap, hmean, hvar, h p.2 hsnd, decide_eq_true_eq]
    norm_num

/-- **C4**: the detector returns no anomalies on fewer than 2 batches, and
none when all gaps are identical (zero standard deviation, strict test). -/
theorem anomaly_detector_trivial_cases (bs : List Batch) :
    (bs.length < 2 → detectAnomalies bs = []) ∧
    (∀ c : ℚ, (∀ g ∈ batchIntervals bs, g = c) → detectAnomalies bs = []) :=
  ⟨fun h => detectAnomalies_of_short bs h,
   fun c h => detectAnomalies_of_const bs c h⟩

/-- Batch at start/end 10, for the identical-gap witness. -/
def b1 : Batch :=
  { device_id := "d1", encrypted_data := "", batch_start := 10, batch_end := 10,
    sample_count := 100, received_at := 0 }

/-- Batch at start/end 20, for the identical-gap witness. -/
def b2 : Batch :=
  { device_id := "d1", encrypted_data := "", batch_start := 20, batch_end := 20,
    sample_count := 100, received_at := 0 }

/-- Witness for C4: one batch alone, and three batches with two equal gaps
of 10, both yield no anomalies. -/
theorem anomaly_detector_trivial_cases_witness :
    detectAnomalies [b0] = [] ∧ detectAnomalies [b0, b1, b2] = [] :=
  ⟨(anomaly_detector_trivial_cases [b0]).1 (by simp),
   (anomaly_detector_trivial_cases [b0, b1, b2]).2 10 (by
      intro g hg
      simp only [batchIntervals, b0, b1, b2, List.tail, List.zipWith, List.mem_cons,
        List.not_mem_nil, or_false] at hg
      rcases hg with h | h <;> rw [h] <;> norm_num)⟩

/-- **C10**: a matched sequence of exactly 2 batches has one gap, which
equals the mean; the variance is 0 and the strict test never fires, so the
anomaly list is empty. -/
theorem two_batches_no_anomaly (ba bb : Batch) :
    detectAnomalies [ba, bb] = [] :=
  detectAnomalies_of_const _ (bb.batch_start - ba.batch_end) (by
    intro g hg
    simp only [batchIntervals, List.tail, List.zipWith, List.mem_cons,
      List.not_mem_nil, or_false] at hg
    exact hg)

/-! ## Analysis-request lemmas -/

theorem request_analysis_eq_complete {store : List Batch} {d : String} {hours : ℤ}
    {now : ℚ} {r : AnalysisReport}
    (h : request_analysis store d hours now = .complete r) :
    filteredBatches store d hours now ≠ [] ∧
    r = {
      threat_level := levelOf (anomalyTerm (detectAnomalies (filteredBatches store d hours now)) +
        densityTerm (filteredBatches store d hours now).length hours)
      threat_score := anomalyTerm (detectAnomalies (filteredBatches store d hours now)) +
        densityTerm (filteredBatches store d hours now).length hours
      confidence := confidenceOf ((filteredBatches store d hours now).map Batch.sample_count).sum
      batches_analyzed := (filteredBatches store d hours now).length
      total_samples := ((filteredBatches store d hours now).map Batch.sample_count).sum
      indicators := detectAnomalies (filteredBatches store d hours now)
      recommendations := recommendationsOf (detectAnomalies (filteredBatches store d hours now))
        (filteredBatches store d hours now).length
        (levelOf (anomalyTerm (detectAnomalies (filteredBatches store d hours now)) +
          densityTerm (filteredBatches store d hours now).length hours)) } := by
  simp only [request_analysis] at h
  by_cases hdb : (filteredBatches store d hours now).isEmpty
  · rw [if_pos hdb] at h
    exact absurd h (by simp)
  · rw [if_neg hdb] at h
    refine ⟨by simp_all, ?_⟩
    injection h with h
    exact h.symm

theorem anomalyTerm_cases (l : List String) :
    anomalyTerm l = 0 ∨ anomalyTerm l = 0.1 ∨ anomalyTerm l = 0.2 ∨ anomalyTerm l = 0.3 := by
  unfold anomalyTerm
  match l with
  | [] => simp
  | [a] =>
    right; left
    simp only [List.isEmpty_cons, Bool.false_eq_true, if_false, List.length_cons,
      List.length_nil]
    rw [min_eq_right (by norm_num)]
    norm_num
  | [a, b] =>
    right; right; left
    simp only [List.isEmpty_cons, Bool.false_eq_true, if_false, List.length_cons,
      List.length_nil]
    rw [min_eq_right (by norm_num)]
    norm_num
  | a :: b :: c :: t =>
    right; right; right
    simp only [List.isEmpty_cons, Bool.false_eq_true, if_false, List.length_cons]
    rw [min_eq_left ?hle]
    case hle =>
      push_cast
      have := Nat.cast_nonneg (α := ℚ) t.length
      nlinarith

theorem densityTerm_cases (bc : ℕ) (hours : ℤ) :
    densityTerm bc hours = 0 ∨ densityTerm bc hours = 0.2 := by
  unfold densityTerm
  split
  · right; rfl
  · left; rfl

theorem levelOf_of_le_half {s : ℚ} (h : s ≤ 0.5) :
    levelOf s ≠ "HIGH" ∧ levelOf s ≠ "CRITICAL" := by
  unfold levelOf
  split_ifs with h1 h2 h3 <;>
    first
      | (exfalso; linarith)
      | (constructor <;> decide)

/-- **C1**: a completed analysis scores exactly the anomaly term plus the
density term; the score lies in {0, 0.1, 0.2, 0.3, 0.4, 0.5}, never exceeds
0.5, and hence the HIGH and CRITICAL levels are unreachable. -/
theorem threat_score_formula (store : List Batch) (d : String) (hours : ℤ) (now : ℚ)
    (r : AnalysisReport) (h : request_analysis store d hours now = .complete r) :
    r.threat_score = anomalyTerm r.indicators + densityTerm r.batches_analyzed hours ∧
    r.threat_score ∈ ({0, 0.1, 0.2, 0.3, 0.4, 0.5} : Set ℚ) ∧
    r.threat_score ≤ 0.5 ∧
    r.threat_level ≠ "HIGH" ∧ r.threat_level ≠ "CRITICAL" := by
  obtain ⟨-, rfl⟩ := request_analysis_eq_complete h
  refine ⟨rfl, ?_, ?_, ?_, ?_⟩ <;>
    dsimp only
  case _ =>
    rcases anomalyTerm_cases (detectAnomalies (filteredBatches store d hours now)) with
        h1 | h1 | h1 | h1 <;>
      rcases densityTerm_cases (filteredBatches store d hours now).length hours with h2 | h2 <;>
      rw [h1, h2] <;> norm_num [Set.mem_insert_iff]
  all_goals
    have hle : anomalyTerm (detectAnomalies (filteredBatches store d hours now)) +
        densityTerm (filteredBatches store d hours now).length hours ≤ 0.5 := by
      rcases anomalyTerm_cases (detectAnomalies (filteredBatches store d hours now)) with
          h1 | h1 | h1 | h1 <;>
        rcases densityTerm_cases (filteredBatches store d hours now).length hours with h2 | h2 <;>
        rw [h1, h2] <;> norm_num
  case _ => exact hle
  case _ => exact (levelOf_of_le_half hle).1
  case _ => exact (levelOf_of_le_half hle).2

/-- The completed report for the one-batch store `[b0]` analysed for device
`"d1"` over 24 hours at time 0: one batch, no gaps, density shortfall only. -/
def exReport1 : AnalysisReport :=
  { threat_level := "LOW", threat_score := 0.2, confidence := 0.01,
    batches_analyzed := 1, total_samples := 100, indicators := [],
    recommendations := ["Continue baseline collection for improved accuracy"] }

theorem exStore1_analysis : request_analysis [b0] "d1" 24 0 = .complete exReport1 := by
  simp only [request_analysis, filteredBatches, b0, List.filter, exReport1]
  norm_num [detectAnomalies, batchIntervals, anomalyTerm, densityTerm, levelOf,
    confidenceOf, recommendationsOf]
  decide

/-- Witness for C1: the concrete run on `[b0]` (score 0.2, level LOW). -/
theorem threat_score_formula_witness :
    exReport1.threat_score = anomalyTerm exReport1.indicators +
      densityTerm exReport1.batches_analyzed 24 ∧
    exReport1.threat_score ∈ ({0, 0.1, 0.2, 0.3, 0.4, 0.5} : Set ℚ) ∧
    exReport1.threat_score ≤ 0.5 ∧
    exReport1.threat_level ≠ "HIGH" ∧ exReport1.threat_level ≠ "CRITICAL" :=
  threat_score_formula [b0] "d1" 24 0 exReport1 exStore1_analysis

/-- **C6**: an analysis request reports `insufficient_data` exactly when the
device/time-window filter matches no stored batch; otherwise (and only
otherwise) a completed report is produced. -/
theorem insufficient_data_iff (store : List Batch) (d : String) (hours : ℤ) (now : ℚ) :
    request_analysis store d hours now = .insufficientData ↔
      filteredBatches store d hours now = [] := by
  simp only [request_analysis]
  by_cases hdb : (filteredBatches store d hours now).isEmpty
  · rw [if_pos hdb]
    simp_all
  · rw [if_neg hdb]
    simp_all

/-- Witness for C6: the empty store yields `insufficient_data`. -/
theorem insufficient_data_iff_witness :
    request_analysis [] "d1" 24 0 = AnalysisOutcome.insufficientData :=
  (insufficient_data_iff [] "d1" 24 0).mpr rfl

/-! ## Recommendation lemmas -/

theorem recommendationsOf_eq_concat (a : List String) (bc : ℕ) (lv : String) :
    recommendationsOf a bc lv =
      (if ((if a = [] then ([] : List String)
            else ["Investigate telemetry gaps for possible interference"]) ++
           (if bc < 10 then ["Continue baseline collection for improved accuracy"] else []) ++
           (if lv = "HIGH" ∨ lv = "CRITICAL" then
              ["Enable enhanced monitoring mode", "Review device for surveillance indicators"]
            else [])) = [] then
        ["Continue normal operation"]
      else
        (if a = [] then ([] : List String)
         else ["Investigate telemetry gaps for possible interference"]) ++
        (if bc < 10 then ["Continue baseline collection for improved accuracy"] else []) ++
        (if lv = "HIGH" ∨ lv = "CRITICAL" then
           ["Enable enhanced monitoring mode", "Review device for surveillance indicators"]
         else [])) ∧
    recommendationsOf a bc lv ≠ [] := by
  unfold recommendationsOf
  by_cases h1 : a = [] <;> by_cases h2 : bc < 10 <;>
    by_cases h3 : lv = "HIGH" ∨ lv = "CRITICAL" <;>
    simp [h1, h2, h3, List.isEmpty_iff]

/-- **C8**: every completed analysis has a non-empty recommendations list,
assembled as the ordered concatenation of the triggered entries, with the
single fallback entry replacing an otherwise empty list. -/
theorem recommendations_spec (store : List Batch) (d : String) (hours : ℤ) (now : ℚ)
    (r : AnalysisReport) (h : request_analysis store d hours now = .complete r) :
    r.recommendations ≠ [] ∧
    r.recommendations =
      (if ((if r.indicators = [] then ([] : List String)
            else ["Investigate telemetry gaps for possible interference"]) ++
           (if r.batches_analyzed < 10 then
              ["Continue baseline collection for improved accuracy"] else []) ++
           (if r.threat_level = "HIGH" ∨ r.threat_level = "CRITICAL" then
              ["Enable enhanced monitoring mode", "Review device for surveillance indicators"]
            else [])) = [] then
        ["Continue normal operation"]
      else
        (if r.indicators = [] then ([] : List String)
         else ["Investigate telemetry gaps for possible interference"]) ++
        (if r.batches_analyzed < 10 then
           ["Continue baseline collection for improved accuracy"] else []) ++
        (if r.threat_level = "HIGH" ∨ r.threat_level = "CRITICAL" then
           ["Enable enhanced monitoring mode", "Review device for surveillance indicators"]
         else [])) := by
  obtain ⟨-, rfl⟩ := request_analysis_eq_complete h
  dsimp only
  obtain ⟨heq, hne⟩ := recommendationsOf_eq_concat
    (detectAnomalies (filteredBatches store d hours now))
    (filteredBatches store d hours now).length
    (levelOf (anomalyTerm (detectAnomalies (filteredBatches store d hours now)) +
      densityTerm (filteredBatches store d hours now).length hours))
  exact ⟨hne, heq⟩

/-- Witness for C8: the concrete run on `[b0]` yields the single baseline
recommendation. -/
theorem recommendations_spec_witness :
    exReport1.recommendations ≠ [] ∧
    exReport1.recommendations =
      (if ((if exReport1.indicators = [] then ([] : List String)
            else ["Investigate telemetry gaps for possible interference"]) ++
           (if exReport1.batches_analyzed < 10 then
              ["Continue baseline collection for improved accuracy"] else []) ++
           (if exReport1.threat_level = "HIGH" ∨ exReport1.threat_level = "CRITICAL" then
              ["Enable enhanced monitoring mode", "Review device for surveillance indicators"]
            else [])) = [] then
        ["Continue normal operation"]
      else
        (if exReport1.indicators = [] then ([] : List String)
         else ["Investigate telemetry gaps for possible interference"]) ++
        (if exReport1.batches_analyzed < 10 then
           ["Continue baseline collection for improved accuracy"] else []) ++
        (if exReport1.threat_level = "HIGH" ∨ exReport1.threat_level = "CRITICAL" then
           ["Enable enhanced monitoring mode", "Review device for surveillance indicators"]
         else [])) :=
  recommendations_spec [b0] "d1" 24 0 exReport1 exStore1_analysis

/-! ## Confidence lemmas -/

/-- **C9**: a completed analysis reports `min(0.95, total_samples / 10000)`
as its confidence; with non-negative sample counts this lies in [0, 0.95],
and the confidence function is monotone in the total sample count. -/
theorem confidence_spec (store : List Batch) (d : String) (hours : ℤ) (now : ℚ)
    (r : AnalysisReport) (h : request_analysis store d hours now = .complete r) :
    r.confidence = min 0.95 ((r.total_samples : ℚ) / 10000) ∧
    ((∀ b ∈ store, 0 ≤ b.sample_count) → 0 ≤ r.confidence ∧ r.confidence ≤ 0.95) ∧
    (∀ t u : ℤ, t ≤ u → confidenceOf t ≤ confidenceOf u) := by
  obtain ⟨-, rfl⟩ := request_analysis_eq_complete h
  refine ⟨rfl, ?_, ?_⟩
  · intro hnn
    have htot : 0 ≤ ((filteredBatches store d hours now).map Batch.sample_count).sum := by
      apply List.sum_nonneg
      intro x hx
      rcases List.mem_map.1 hx with ⟨b, hb, rfl⟩
      exact hnn b (List.mem_of_mem_filter hb)
    dsimp only
    unfold confidenceOf
    constructor
    · apply le_min (by norm_num)
      apply div_nonneg _ (by norm_num)
      exact_mod_cast htot
    · exact min_le_left _ _
  · intro t u htu
    unfold confidenceOf
    apply min_le_min le_rfl
    have hc : ((t : ℚ)) ≤ (u : ℚ) := by exact_mod_cast htu
    exact (div_le_div_iff_of_pos_right (by norm_num)).mpr hc

/-- Witness for C9: the concrete run on `[b0]` has confidence 0.01, within
bounds, and the confidence function is monotone at 3 ≤ 7. -/
theorem confidence_spec_witness :
    exReport1.confidence = min 0.95 ((exReport1.total_samples : ℚ) / 10000) ∧
    (0 ≤ exReport1.confidence ∧ exReport1.confidence ≤ 0.95) ∧
    confidenceOf 3 ≤ confidenceOf 7 :=
  ⟨(confidence_spec [b0] "d1" 24 0 exReport1 exStore1_analysis).1,
   (confidence_spec [b0] "d1" 24 0 exReport1 exStore1_analysis).2.1 (by
      intro b hb
      simp only [List.mem_singleton] at hb
      subst hb
      norm_num [b0]),
   (confidence_spec [b0] "d1" 24 0 exReport1 exStore1_analysis).2.2 3 7 (by norm_num)⟩

/-! ## Indicator indexing -/

theorem filterMap_ite_eq_filter_map {α β : Type _} (q : α → Bool) (f : α → β) (l : List α) :
    l.filterMap (fun a => if q a then some (f a) else none) = (l.filter q).map f := by
  induction l with
  | nil => rfl
  | cons x t ih => by_cases h : q x <;> simp [h, ih]

/-- **C2 amended**: each emitted indicator is
`"Unusual gap in telemetry at batch i"` where `i` is the 0-based index of
the flagged gap in the gap sequence (Python `enumerate` starts at 0), and
the indicator order matches the gap order. -/
theorem gap_indicator_zero_based (bs : List Batch) :
    detectAnomalies bs =
      ((batchIntervals bs).enum.filter (fun p =>
          isAnomalousGap (gapMean (batchIntervals bs)) (gapVarSq (batchIntervals bs)) p.2)).map
        (fun p => "Unusual gap in telemetry at batch " ++ toString p.1) ∧
    ∀ p ∈ (batchIntervals bs).enum, p.1 < (batchIntervals bs).length := by
  constructor
  · unfold detectAnomalies
    by_cases hg : (batchIntervals bs).isEmpty
    · have hnil : batchIntervals bs = [] := by simp_all
      simp [hnil]
    · simp only [hg, Bool.false_eq_true, if_false]
      exact filterMap_ite_eq_filter_map _ _ _
  · intro p hp
    obtain ⟨hlt, -⟩ := List.getElem?_eq_some.1 (List.mem_enum_iff_getElem?.1 hp)
    exact hlt

/-- A zero-width batch of device `"d1"` at time `t`, for the counterexample. -/
def pointBatch (t : ℚ) : Batch :=
  { device_id := "d1", encrypted_data := "", batch_start := t, batch_end := t,
    sample_count := 0, received_at := 0 }

/-- Twelve batches whose gap sequence is ten 0-gaps followed by one gap of
100: only the last gap (0-based index 10, 1-based index 11) is flagged. -/
def exBatches : List Batch :=
  [pointBatch 0, pointBatch 0, pointBatch 0, pointBatch 0, pointBatch 0, pointBatch 0,
   pointBatch 0, pointBatch 0, pointBatch 0, pointBatch 0, pointBatch 0, pointBatch 100]

/-- Counterexample to C2 as stated: in `exBatches` the unique flagged gap is
the eleventh gap (1-based index 11), yet the emitted indicator says
`"batch 10"`, its 0-based index, not `"batch 11"`. -/
theorem gap_indicator_one_based_cex :
    detectAnomalies exBatches = ["Unusual gap in telemetry at batch 10"] ∧
    detectAnomalies exBatches ≠ ["Unusual gap in telemetry at batch 11"] := by
  have h : detectAnomalies exBatches = ["Unusual gap in telemetry at batch 10"] := by
    simp [detectAnomalies, exBatches, pointBatch, batchIntervals, gapMean, gapVarSq,
      isAnomalousGap, List.enum]
    norm_num [List.filterMap]
    rfl
  exact ⟨h, by rw [h]; decide⟩

/-! ## Forensic-report lemmas -/

theorem foldl_min_spec (f : Batch → ℚ) (l : List Batch) (a : ℚ) :
    l.foldl (fun m x => min m (f x)) a ≤ a ∧
    (∀ x ∈ l, l.foldl (fun m x => min m (f x)) a ≤ f x) ∧
    (l.foldl (fun m x => min m (f x)) a = a ∨
      l.foldl (fun m x => min m (f x)) a ∈ l.map f) := by
  induction l generalizing a with
  | nil => simp
  | cons x t ih =>
    simp only [List.foldl_cons]
    obtain ⟨ih1, ih2, ih3⟩ := ih (min a (f x))
    refine ⟨le_trans ih1 (min_le_left _ _), ?_, ?_⟩
    · intro y hy
      rcases List.mem_cons.1 hy with rfl | hy'
      · exact le_trans ih1 (min_le_right _ _)
      · exact ih2 y hy'
    · rcases ih3 with h | h
      · rcases min_choice a (f x) with hm | hm
        · left; rw [h, hm]
        · right; rw [h, hm]; simp
      · right; simp [List.map_cons, h]

theorem foldl_max_spec (f : Batch → ℚ) (l : List Batch) (a : ℚ) :
    a ≤ l.foldl (fun m x => max m (f x)) a ∧
    (∀ x ∈ l, f x ≤ l.foldl (fun m x => max m (f x)) a) ∧
    (l.foldl (fun m x => max m (f x)) a = a ∨
      l.foldl (fun m x => max m (f x)) a ∈ l.map f) := by
  induction l generalizing a with
  | nil => simp
  | cons x t ih =>
    simp only [List.foldl_cons]
    obtain ⟨ih1, ih2, ih3⟩ := ih (max a (f x))
    refine ⟨le_trans (le_max_left _ _) ih1, ?_, ?_⟩
    · intro y hy
      rcases List.mem_cons.1 hy with rfl | hy'
      · exact le_trans (le_max_right _ _) ih1
      · exact ih2 y hy'
    · rcases ih3 with h | h
      · rcases max_choice a (f x) with hm | hm
        · left; rw [h, hm]
        · right; rw [h, hm]; simp
      · right; simp [List.map_cons, h]

/-- **C7**: forensic report generation fails (with the 404 detail string)
exactly when the device has no stored batches; on success the reported
`first_batch`/`last_batch` are the attained minimum start and maximum end
over the device's batches, and `duration_hours` is their difference divided
by 3600, whatever its sign. -/
theorem forensic_report_spec (store : List Batch) (d : String) :
    (generate_forensic_report store d = .error "No telemetry found for device" ↔
      allDeviceBatches store d = []) ∧
    (∀ r, generate_forensic_report store d = .ok r →
      r.duration_hours = (r.last_batch - r.first_batch) / 3600 ∧
      r.first_batch ∈ (allDeviceBatches store d).map Batch.batch_start ∧
      (∀ b ∈ allDeviceBatches store d, r.first_batch ≤ b.batch_start) ∧
      r.last_batch ∈ (allDeviceBatches store d).map Batch.batch_end ∧
      (∀ b ∈ allDeviceBatches store d, b.batch_end ≤ r.last_batch)) := by
  constructor
  · unfold generate_forensic_report
    rcases hd : allDeviceBatches store d with - | ⟨b, bs⟩ <;> simp
  · intro r hr
    unfold generate_forensic_report at hr
    rcases hd : allDeviceBatches store d with - | ⟨b, bs⟩ <;> rw [hd] at hr
    · exact absurd hr (by simp)
    · injection hr with hr
      subst hr
      obtain ⟨hmin1, hmin2, hmin3⟩ :=
        foldl_min_spec Batch.batch_start bs b.batch_start
      obtain ⟨hmax1, hmax2, hmax3⟩ :=
        foldl_max_spec Batch.batch_end bs b.batch_end
      refine ⟨rfl, ?_, ?_, ?_, ?_⟩
      · dsimp only
        rcases hmin3 with h | h
        · rw [h]; simp
        · simp only [List.map_cons, List.mem_cons]
          exact Or.inr h
      · intro x hx
        rcases List.mem_cons.1 hx with rfl | hx'
        · exact hmin1
        · exact hmin2 x hx'
      · dsimp only
        rcases hmax3 with h | h
        · rw [h]; simp
        · simp only [List.map_cons, List.mem_cons]
          exact Or.inr h
      · intro x hx
        rcases List.mem_cons.1 hx with rfl | hx'
        · exact hmax1
        · exact hmax2 x hx'

/-- A malformed batch whose window ends 7200 s before it starts, for the
negative-duration witness. -/
def bneg : Batch :=
  { device_id := "d2", encrypted_data := "", batch_start := 7200, batch_end := 0,
    sample_count := 5, received_at := 0 }

/-- The forensic report for the store `[bneg]`: duration −2 hours. -/
def forensicEx : ForensicReport :=
  { device_id := "d2", first_batch := 7200, last_batch := 0,
    duration_hours := -2, total_batches := 1, total_samples := 5 }

theorem forensicEx_eq : generate_forensic_report [bneg] "d2" = .ok forensicEx := by
  simp only [generate_forensic_report, allDeviceBatches, List.filter, bneg, forensicEx]
  norm_num

/-- Witness for C7: a one-batch store with a malformed window yields a
report with duration −2 hours satisfying the contract, and the empty store
yields the 404 error. -/
theorem forensic_report_spec_witness :
    generate_forensic_report [bneg] "d2" = Except.ok forensicEx ∧
    forensicEx.duration_hours = (forensicEx.last_batch - forensicEx.first_batch) / 3600 ∧
    generate_forensic_report [] "d2" = Except.error "No telemetry found for device" :=
  ⟨forensicEx_eq,
   ((forensic_report_spec [bneg] "d2").2 forensicEx forensicEx_eq).1,
   (forensic_report_spec [] "d2").1.mpr rfl⟩

/-- Witness for the amended C2: the counterexample batches evaluated through
the 0-based characterization; the flagged pair `(10, 100)` is in range. -/
theorem gap_indicator_zero_based_witness :
    detectAnomalies exBatches =
      ((batchIntervals exBatches).enum.filter (fun p =>
          isAnomalousGap (gapMean (batchIntervals exBatches))
            (gapVarSq (batchIntervals exBatches)) p.2)).map
        (fun p => "Unusual gap in telemetry at batch " ++ toString p.1) ∧
    (10 : ℕ) < (batchIntervals exBatches).length :=
  ⟨(gap_indicator_zero_based exBatches).1,
   (gap_indicator_zero_based exBatches).2 (10, 100) (by
      simp [batchIntervals, exBatches, pointBatch, List.enum])⟩

/-- Witness for C3: a score of 0.6 is bucketed HIGH via the threshold
characterization. -/
theorem threat_level_thresholds_witness : levelOf 0.6 = "HIGH" :=
  (threat_level_thresholds 0.6).2.1.mpr (by norm_num)
